import Mathlib

/-!
Verification development for the antigravity-agent credential / model-cache
slice.  The definitions below are shallow embeddings of the TypeScript
sources:

* `src/services/cloudcode-api.ts` (the unnamed source file): the response
  settling of `loadCodeAssist`, `fetchAvailableModels`,
  `refreshAccessToken`, the `getGoogleOAuthClientCredentials` helper and
  the refresh-grant request body.
* `src/modules/use-available-models.ts`: the `fetchData` action of the
  `useAvailableModels` store.

Network I/O is modelled by an oracle (`Env`) giving the parsed JSON of
each network call; `fetchData` records the calls it issues in a trace.
The account type (`account.types.ts`) and the Rust BackupCodec are not
part of the frontend sources; where they are needed they are modelled
from the specification, as marked by their doc comments.
-/

/-- Modelled from the spec: the `AntigravityAccount` type file
(`account.types.ts`) is not among the frontend sources.  The spec's data
model declares `auth{access_token, refresh_handle, id_token}`; the code
in `use-available-models.ts` reads `auth.access_token` and
`auth.id_token`. -/
structure Auth where
  access_token : String
  refresh_handle : String
  id_token : String
deriving DecidableEq, Repr

/-- Modelled from the spec: account context.  The code reads
`context.email`; the spec's data model additionally declares
`context{project_id}`. -/
structure AccountContext where
  email : String
  project_id : Option String
deriving DecidableEq, Repr

/-- Modelled from the spec: an account bundles `auth`, `context` and the
opaque raw host session state (`raw_state`). -/
structure AntigravityAccount where
  auth : Auth
  context : AccountContext
  raw_state : String
deriving DecidableEq, Repr

/-- Parsed JSON of a `loadCodeAssist` (session-initialization) response:
`error` records whether the object has an `"error"` member; a success
response may carry `cloudaicompanionProject`. -/
structure LoadResp where
  error : Bool
  cloudaicompanionProject : Option String
deriving DecidableEq, Repr

/-- Parsed JSON of an OAuth refresh-grant response. -/
structure RefreshResp where
  error : Bool
  access_token : String
deriving DecidableEq, Repr

/-- Parsed JSON of a `fetchAvailableModels` response; the model mapping
itself is opaque to this slice. -/
structure ModelsResp where
  error : Bool
  payload : String
deriving DecidableEq, Repr

/-- `loadCodeAssist` response settling, from `cloudcode-api.ts`:
`if ("error" in response) return Promise.reject(response); return response;`.
`Except.error` is the rejected promise, `Except.ok` the resolved one. -/
def loadCodeAssist (r : LoadResp) : Except LoadResp LoadResp :=
  if r.error then Except.error r else Except.ok r

/-- `fetchAvailableModels` response settling, from `cloudcode-api.ts`:
rejects with the parsed response exactly when it has an `"error"` member. -/
def fetchAvailableModels (m : ModelsResp) : Except ModelsResp ModelsResp :=
  if m.error then Except.error m else Except.ok m

/-- Response settling inside `refreshAccessToken`, from
`cloudcode-api.ts`: rejects with the parsed JSON exactly when it has an
`"error"` member. -/
def refreshSettle (r : RefreshResp) : Except RefreshResp RefreshResp :=
  if r.error then Except.error r else Except.ok r

/-- One network call issued by `fetchData`, with the arguments it was
issued with: the bearer token of a session-initialization call, the token
presented to the OAuth refresh grant, or the bearer token and project of
a model-listing call. -/
inductive Call where
  | loadCodeAssist (token : String)
  | refreshToken (token : String)
  | fetchModels (token : String) (project : Option String)
deriving DecidableEq, Repr

/-- Whether the promise returned by `fetchData` resolves or rejects. -/
inductive Outcome where
  | ok
  | rejected
deriving DecidableEq, Repr

/-- Network oracle for one `fetchData` invocation: `load k tok` is the
parsed JSON of the k-th session-initialization call (made with bearer
token `tok`), `currentEmail` is the email of
`AccountCommands.getCurrentAntigravityAccount()` (none when there is no
current account), `refresh tok` the parsed JSON of the refresh grant
called with `tok`, and `models tok proj` the parsed JSON of the
model-listing call. -/
structure Env where
  load : Nat → String → LoadResp
  currentEmail : Option String
  refresh : String → RefreshResp
  models : String → Option String → ModelsResp

/-- The `useAvailableModels` store's `data` record, keyed by account
email. -/
def Cache : Type := String → Option ModelsResp

/-- Result of one `fetchData` invocation: the account object after the
call (the source mutates it in place), the store's `data` record, the
trace of network calls issued, and whether the promise resolved. -/
structure FetchResult where
  account : AntigravityAccount
  cache : Cache
  trace : List Call
  outcome : Outcome

/-- Tail of `fetchData` from line 40 of `use-available-models.ts` on:
re-issue `loadCodeAssist` (the second session-init call of the
invocation), then `fetchAvailableModels` keyed by the
`cloudaicompanionProject` of that second response, then merge the result
into the store under the account's email.  A rejected wrapper call
rejects the whole invocation. -/
def fetchDataTail (env : Env) (cache : Cache) (acc : AntigravityAccount)
    (trace : List Call) : FetchResult :=
  match loadCodeAssist (env.load 1 acc.auth.access_token) with
  | Except.error _ =>
      ⟨acc, cache, trace ++ [Call.loadCodeAssist acc.auth.access_token],
        Outcome.rejected⟩
  | Except.ok r1 =>
      match fetchAvailableModels
          (env.models acc.auth.access_token r1.cloudaicompanionProject) with
      | Except.error _ =>
          ⟨acc, cache,
            trace ++ [Call.loadCodeAssist acc.auth.access_token,
              Call.fetchModels acc.auth.access_token r1.cloudaicompanionProject],
            Outcome.rejected⟩
      | Except.ok m =>
          ⟨acc,
            fun e => if e = acc.context.email then some m else cache e,
            trace ++ [Call.loadCodeAssist acc.auth.access_token,
              Call.fetchModels acc.auth.access_token r1.cloudaicompanionProject],
            Outcome.ok⟩

/-- `fetchData` from `use-available-models.ts`.  First
session-initialization call with the account's access token (its
rejection is caught); if the parsed response has an `"error"` member:
when the account's email equals the current (active) account's email,
return at once with no further call and no mutation; otherwise call the
refresh grant with `auth.id_token` (the source passes the id token where
the wrapper's parameter is named `refresh_token`), and on success
overwrite `auth.access_token` in memory.  Then the tail above runs.  The
source performs no file I/O in this action (its comment states the new
token is deliberately not written to disk), so the only effects are the
recorded network calls, the account object and the store. -/
def fetchData (env : Env) (cache : Cache) (acc : AntigravityAccount) :
    FetchResult :=
  match loadCodeAssist (env.load 0 acc.auth.access_token) with
  | Except.ok _ =>
      fetchDataTail env cache acc [Call.loadCodeAssist acc.auth.access_token]
  | Except.error _ =>
      if env.currentEmail = some acc.context.email then
        ⟨acc, cache, [Call.loadCodeAssist acc.auth.access_token], Outcome.ok⟩
      else
        match refreshSettle (env.refresh acc.auth.id_token) with
        | Except.error _ =>
            ⟨acc, cache,
              [Call.loadCodeAssist acc.auth.access_token,
                Call.refreshToken acc.auth.id_token],
              Outcome.rejected⟩
        | Except.ok rr =>
            fetchDataTail env cache
              { acc with auth := { acc.auth with access_token := rr.access_token } }
              [Call.loadCodeAssist acc.auth.access_token,
                Call.refreshToken acc.auth.id_token]

/-- Number of OAuth refresh calls in a trace. -/
def refreshCalls (t : List Call) : Nat :=
  (t.filter fun c => match c with
    | Call.refreshToken _ => true
    | _ => false).length

/-- Number of session-initialization calls in a trace. -/
def loadCalls (t : List Call) : Nat :=
  (t.filter fun c => match c with
    | Call.loadCodeAssist _ => true
    | _ => false).length

/-- Build-time environment of `cloudcode-api.ts`:
`import.meta.env.VITE_GOOGLE_OAUTH_CLIENT_ID` and
`VITE_GOOGLE_OAUTH_CLIENT_SECRET`, each a string or undefined. -/
structure OAuthEnv where
  clientId : Option String
  clientSecret : Option String
deriving DecidableEq, Repr

/-- JavaScript truthiness of a possibly-undefined string: the empty
string and `undefined` are falsy. -/
def jsTruthy : Option String → Bool
  | none => false
  | some s => !s.isEmpty

/-- The `clientSecret || undefined` normalization of
`getGoogleOAuthClientCredentials`: an empty or absent secret becomes
`undefined`. -/
def normalizeSecret : Option String → Option String
  | none => none
  | some s => if s.isEmpty then none else some s

/-- `getGoogleOAuthClientCredentials` from `cloudcode-api.ts`: throws
when the client id is undefined or empty (`if (!clientId) throw`),
otherwise yields the client id and the normalized optional secret. -/
def getGoogleOAuthClientCredentials (oenv : OAuthEnv) :
    Except String (String × Option String) :=
  match oenv.clientId with
  | none => Except.error "Missing VITE_GOOGLE_OAUTH_CLIENT_ID (Google OAuth client_id)"
  | some cid =>
      if cid.isEmpty then
        Except.error "Missing VITE_GOOGLE_OAUTH_CLIENT_ID (Google OAuth client_id)"
      else
        Except.ok (cid, normalizeSecret oenv.clientSecret)

/-- The URL-encoded form body built by `refreshAccessToken`:
`client_id`, `grant_type=refresh_token`, `refresh_token`, and
`client_secret` exactly when the (normalized) secret is present
(`if (clientSecret) body.set('client_secret', ...)`). -/
def refreshTokenBody (clientId : String) (clientSecret : Option String)
    (refresh_tok : String) : List (String × String) :=
  [("client_id", clientId), ("grant_type", "refresh_token"),
    ("refresh_token", refresh_tok)] ++
  (match clientSecret with
   | some s => [("client_secret", s)]
   | none => [])

/-- Failure of a `refreshAccessToken` run: the error thrown before any
request when the client id is missing, or the rejected parsed response. -/
inductive RefreshFailure where
  | missingClientId (msg : String)
  | response (r : RefreshResp)
deriving DecidableEq, Repr

/-- One `refreshAccessToken` run: the request body actually posted to
the token endpoint (`none` when no request was issued) and the settled
result. -/
structure RefreshRun where
  request : Option (List (String × String))
  result : Except RefreshFailure RefreshResp
deriving Repr

/-- `refreshAccessToken` from `cloudcode-api.ts`: read the credentials
(throwing before any network request when the client id is missing),
post the form body to the token endpoint, and settle the parsed JSON,
rejecting exactly when it has an `"error"` member.  `resp` is the parsed
JSON the endpoint answers with. -/
def refreshAccessToken (oenv : OAuthEnv) (refresh_tok : String)
    (resp : RefreshResp) : RefreshRun :=
  match getGoogleOAuthClientCredentials oenv with
  | Except.error msg => ⟨none, Except.error (RefreshFailure.missingClientId msg)⟩
  | Except.ok (cid, secret) =>
      ⟨some (refreshTokenBody cid secret refresh_tok),
        match refreshSettle resp with
        | Except.error e => Except.error (RefreshFailure.response e)
        | Except.ok r => Except.ok r⟩

/-- Modelled from the spec: the BackupCodec lives in the Rust backend
(`src-tauri/src/commands/account_manage_commands.rs`), which is not
among the frontend sources.  Sealed envelope of the v2 backup format:
version discriminator, KDF name, iteration count, salt, nonce,
ciphertext and the AEAD authentication tag (the spec folds the tag into
the ciphertext; it is a separate field here). -/
structure SealedEnvelope where
  v : Nat
  kdf : String
  iter : Nat
  salt : List Nat
  nonce : List Nat
  ciphertext : List Nat
  tag : Nat
deriving DecidableEq, Repr

/-- Modelled from the spec: input to `decode`, a tagged union selected
by the presence of the version discriminator — a sealed envelope or a
headerless legacy payload (already Base64-decoded). -/
inductive BackupInput where
  | sealed (e : SealedEnvelope)
  | legacy (bytes : List Nat)
deriving DecidableEq, Repr

/-- Modelled from the spec: decode failures — `IntegrityError` for an
AEAD tag mismatch (wrong password or corruption, intentionally
conflated) and `DecodeError` for a malformed envelope. -/
inductive CodecError where
  | IntegrityError
  | DecodeError
deriving DecidableEq, Repr

/-- Modelled from the spec: PBKDF2 iteration count of the sealed
format. -/
def pbkdf2Iterations : Nat := 210000

/-- Modelled from the spec: stand-in for PBKDF2-HMAC-SHA256 key
derivation — a concrete function of password, salt and iteration count
(the real hash is outside the scope of this embedding; only its
determinism in these inputs matters to the codec's contract). -/
def deriveKey (password : List Nat) (salt : List Nat) (iterations : Nat) : Nat :=
  iterations * 1000003 +
    password.foldl (fun a b => a * 257 + b + 1) 7 * 65537 +
    salt.foldl (fun a b => a * 263 + b + 1) 11

/-- Modelled from the spec: stand-in for the AES-256-GCM keystream under
a key and nonce — `n` pseudorandom bytes, a concrete function of key and
nonce. -/
def keystream (key nonce n : Nat) : List Nat :=
  (List.range n).map (fun i => (key * 131 + nonce * 31 + i * 8191 + 97) % 256)

/-- Modelled from the spec: stand-in for the AES-256-GCM authentication
tag over the ciphertext under a key and nonce. -/
def authTag (key nonce : Nat) (ct : List Nat) : Nat :=
  ct.foldl (fun a b => (a * 131 + b + 5) % 1000000007)
    ((key * 8191 + nonce * 127 + 3) % 1000000007)

/-- Modelled from the spec: fold a nonce's bytes into a single number
for use by the keystream and tag stand-ins. -/
def nonceVal (nonce : List Nat) : Nat :=
  nonce.foldl (fun a b => a * 256 + b) 0

/-- Modelled from the spec: `BackupCodec.encode` — derive a 32-byte key
by PBKDF2 over the password and the (per-call random) salt with 210000
iterations, and seal the raw state with AES-256-GCM under that key and
the (per-call random) nonce.  Randomness is modelled by taking the
fresh salt and nonce as arguments. -/
def encode (raw_state : List Nat) (password : List Nat)
    (salt : List Nat) (nonce : List Nat) : SealedEnvelope :=
  let key := deriveKey password salt pbkdf2Iterations
  ⟨2, "pbkdf2-sha256", pbkdf2Iterations, salt, nonce,
    List.zipWith Nat.xor raw_state (keystream key (nonceVal nonce) raw_state.length),
    authTag key (nonceVal nonce) (List.zipWith Nat.xor raw_state
      (keystream key (nonceVal nonce) raw_state.length))⟩

/-- Modelled from the spec: XOR a payload with the password repeated to
its length (the legacy format's cipher). -/
def xorRepeat (bytes : List Nat) (password : List Nat) : List Nat :=
  (List.range bytes.length).map
    (fun i => Nat.xor (bytes.getD i 0) (password.getD (i % password.length) 0))

/-- Modelled from the spec: `BackupCodec.decode` — a sealed input with
version discriminator 2 re-derives the key from the embedded salt and
iterations, checks the AEAD tag (mismatch fails with `IntegrityError`)
and opens the ciphertext; any other version is a malformed envelope; a
headerless input falls back to the unauthenticated legacy XOR path,
which never fails. -/
def decode (input : BackupInput) (password : List Nat) :
    Except CodecError (List Nat) :=
  match input with
  | BackupInput.sealed e =>
      if e.v = 2 then
        let key := deriveKey password e.salt e.iter
        if authTag key (nonceVal e.nonce) e.ciphertext = e.tag then
          Except.ok (List.zipWith Nat.xor e.ciphertext
            (keystream key (nonceVal e.nonce) e.ciphertext.length))
        else
          Except.error CodecError.IntegrityError
      else
        Except.error CodecError.DecodeError
  | BackupInput.legacy bytes =>
      Except.ok (xorRepeat bytes password)

/-- XOR-ing a list with the same mask twice gives the list back, when
the mask is at least as long. -/
theorem zipWith_xor_cancel (l : List Nat) : ∀ (m : List Nat),
    l.length ≤ m.length →
    List.zipWith Nat.xor (List.zipWith Nat.xor l m) m = l := by
  induction l with
  | nil => intro m _; simp
  | cons a l ih =>
      intro m hm
      cases m with
      | nil => simp at hm
      | cons b m =>
          simp only [List.zipWith]
          refine congrArg₂ List.cons (Nat.xor_cancel_right b a) ?_
          exact ih m (Nat.succ_le_succ_iff.mp hm)

/-- The keystream stand-in has the requested length. -/
theorem keystream_length (key nonce n : Nat) :
    (keystream key nonce n).length = n := by
  simp [keystream]

/-- The account of a `fetchDataTail` run is the account it was entered
with: the tail of `fetchData` never mutates the account. -/
theorem fetchDataTail_account (env : Env) (cache : Cache)
    (acc : AntigravityAccount) (t : List Call) :
    (fetchDataTail env cache acc t).account = acc := by
  cases h1 : (env.load 1 acc.auth.access_token).error with
  | true => simp [fetchDataTail, loadCodeAssist, h1]
  | false =>
      cases h2 : (env.models acc.auth.access_token
          (env.load 1 acc.auth.access_token).cloudaicompanionProject).error with
      | true => simp [fetchDataTail, loadCodeAssist, fetchAvailableModels, h1, h2]
      | false => simp [fetchDataTail, loadCodeAssist, fetchAvailableModels, h1, h2]

/-- The tail of `fetchData` issues no refresh call. -/
theorem fetchDataTail_refreshCalls (env : Env) (cache : Cache)
    (acc : AntigravityAccount) (t : List Call) :
    refreshCalls (fetchDataTail env cache acc t).trace = refreshCalls t := by
  cases h1 : (env.load 1 acc.auth.access_token).error with
  | true => simp [fetchDataTail, loadCodeAssist, h1, refreshCalls]
  | false =>
      cases h2 : (env.models acc.auth.access_token
          (env.load 1 acc.auth.access_token).cloudaicompanionProject).error with
      | true =>
          simp [fetchDataTail, loadCodeAssist, fetchAvailableModels, h1, h2,
            refreshCalls]
      | false =>
          simp [fetchDataTail, loadCodeAssist, fetchAvailableModels, h1, h2,
            refreshCalls]

/-- The tail of `fetchData` issues exactly one session-initialization
call. -/
theorem fetchDataTail_loadCalls (env : Env) (cache : Cache)
    (acc : AntigravityAccount) (t : List Call) :
    loadCalls (fetchDataTail env cache acc t).trace = loadCalls t + 1 := by
  cases h1 : (env.load 1 acc.auth.access_token).error with
  | true => simp [fetchDataTail, loadCodeAssist, h1, loadCalls]
  | false =>
      cases h2 : (env.models acc.auth.access_token
          (env.load 1 acc.auth.access_token).cloudaicompanionProject).error with
      | true =>
          simp [fetchDataTail, loadCodeAssist, fetchAvailableModels, h1, h2,
            loadCalls]
      | false =>
          simp [fetchDataTail, loadCodeAssist, fetchAvailableModels, h1, h2,
            loadCalls]

/-- The tail of `fetchData` changes no cache entry other than the one
under the account's own email. -/
theorem fetchDataTail_cache_frame (env : Env) (cache : Cache)
    (acc : AntigravityAccount) (t : List Call) (e : String)
    (hne : e ≠ acc.context.email) :
    (fetchDataTail env cache acc t).cache e = cache e := by
  cases h1 : (env.load 1 acc.auth.access_token).error with
  | true => simp [fetchDataTail, loadCodeAssist, h1]
  | false =>
      cases h2 : (env.models acc.auth.access_token
          (env.load 1 acc.auth.access_token).cloudaicompanionProject).error with
      | true => simp [fetchDataTail, loadCodeAssist, fetchAvailableModels, h1, h2]
      | false =>
          simp [fetchDataTail, loadCodeAssist, fetchAvailableModels, h1, h2, hne]

/-- When the second session-initialization response settles without
error, the tail of `fetchData` issues the model-listing call keyed by
that response's `cloudaicompanionProject`. -/
theorem fetchDataTail_models_mem (env : Env) (cache : Cache)
    (acc : AntigravityAccount) (t : List Call)
    (h1 : (env.load 1 acc.auth.access_token).error = false) :
    Call.fetchModels acc.auth.access_token
        (env.load 1 acc.auth.access_token).cloudaicompanionProject ∈
      (fetchDataTail env cache acc t).trace := by
  cases h2 : (env.models acc.auth.access_token
      (env.load 1 acc.auth.access_token).cloudaicompanionProject).error with
  | true => simp [fetchDataTail, loadCodeAssist, fetchAvailableModels, h1, h2]
  | false => simp [fetchDataTail, loadCodeAssist, fetchAvailableModels, h1, h2]

/-- C6: BackupCodec round-trip — for every payload, password, salt and
nonce, decoding the sealed envelope produced by `encode` with the same
password returns exactly the payload. -/
theorem backup_roundtrip (raw password salt nonce : List Nat) :
    decode (BackupInput.sealed (encode raw password salt nonce)) password
      = Except.ok raw := by
  have hlen : (List.zipWith Nat.xor raw
      (keystream (deriveKey password salt pbkdf2Iterations) (nonceVal nonce)
        raw.length)).length = raw.length := by
    simp [keystream_length]
  simp only [decode, encode, if_pos rfl, hlen, if_true]
  exact congrArg Except.ok
    (zipWith_xor_cancel raw _ (by simp [keystream_length]))

/-- C1: when the initial session-initialization call fails with an
error and the account's email equals the current (active) account's
email, `fetchData` issues no refresh call, mutates neither the account
nor the model cache, and resolves with the account unchanged. -/
theorem fetchData_active_identity_noop (env : Env) (cache : Cache)
    (acc : AntigravityAccount)
    (hfail : (env.load 0 acc.auth.access_token).error = true)
    (hactive : env.currentEmail = some acc.context.email) :
    (fetchData env cache acc).account = acc ∧
    (∀ e, (fetchData env cache acc).cache e = cache e) ∧
    refreshCalls (fetchData env cache acc).trace = 0 ∧
    (fetchData env cache acc).outcome = Outcome.ok := by
  simp [fetchData, loadCodeAssist, hfail, hactive, refreshCalls]

def envC1 : Env :=
  ⟨fun _ _ => ⟨true, none⟩, some "alice@example.com",
    fun _ => ⟨false, "NEW-AT"⟩, fun _ _ => ⟨false, "MODELS"⟩⟩

def accC1 : AntigravityAccount :=
  ⟨⟨"AT", "RH", "IDT"⟩, ⟨"alice@example.com", none⟩, "raw"⟩

def cacheC1 : Cache := fun _ => none

theorem fetchData_active_identity_noop_witness :
    (envC1.load 0 accC1.auth.access_token).error = true ∧
    envC1.currentEmail = some accC1.context.email ∧
    (fetchData envC1 cacheC1 accC1).account = accC1 ∧
    (fetchData envC1 cacheC1 accC1).cache "bob@example.com" = none ∧
    refreshCalls (fetchData envC1 cacheC1 accC1).trace = 0 ∧
    (fetchData envC1 cacheC1 accC1).outcome = Outcome.ok := by
  have h := fetchData_active_identity_noop envC1 cacheC1 accC1 rfl rfl
  exact ⟨rfl, rfl, h.1, h.2.1 "bob@example.com", h.2.2.1, h.2.2.2⟩

/-- C2: on the refresh path, `fetchData` presents `auth.id_token` to
the OAuth refresh grant — not the field the spec designates for the
refresh grant (`auth.refresh_handle`).  Evaluated at an account whose
two fields differ, the trace carries the id-token value and not the
refresh-handle value. -/
theorem fetchData_refresh_sends_id_token :
    (⟨⟨"AT", "REFRESH-HANDLE", "ID-TOKEN"⟩,
        ⟨"bob@example.com", none⟩, "raw"⟩ : AntigravityAccount).auth.refresh_handle
      = "REFRESH-HANDLE" ∧
    Call.refreshToken "ID-TOKEN" ∈
      (fetchData
        ⟨fun k _ => if k = 0 then ⟨true, none⟩ else ⟨false, some "P"⟩,
          some "alice@example.com",
          fun _ => ⟨false, "NEW-AT"⟩, fun _ _ => ⟨false, "MODELS"⟩⟩
        (fun _ => none)
        ⟨⟨"AT", "REFRESH-HANDLE", "ID-TOKEN"⟩,
          ⟨"bob@example.com", none⟩, "raw"⟩).trace ∧
    Call.refreshToken "REFRESH-HANDLE" ∉
      (fetchData
        ⟨fun k _ => if k = 0 then ⟨true, none⟩ else ⟨false, some "P"⟩,
          some "alice@example.com",
          fun _ => ⟨false, "NEW-AT"⟩, fun _ _ => ⟨false, "MODELS"⟩⟩
        (fun _ => none)
        ⟨⟨"AT", "REFRESH-HANDLE", "ID-TOKEN"⟩,
          ⟨"bob@example.com", none⟩, "raw"⟩).trace := by
  decide

/-- C3: every `fetchData` invocation issues at most one OAuth refresh
call, and zero refresh calls when the initial session-initialization
call settles without error. -/
theorem fetchData_at_most_one_refresh (env : Env) (cache : Cache)
    (acc : AntigravityAccount) :
    refreshCalls (fetchData env cache acc).trace ≤ 1 ∧
    ((env.load 0 acc.auth.access_token).error = false →
      refreshCalls (fetchData env cache acc).trace = 0) := by
  cases h0 : (env.load 0 acc.auth.access_token).error with
  | false =>
      have h : refreshCalls (fetchData env cache acc).trace = 0 := by
        simp only [fetchData, loadCodeAssist, h0, Bool.false_eq_true, if_false]
        rw [fetchDataTail_refreshCalls]
        simp [refreshCalls]
      exact ⟨by omega, fun _ => h⟩
  | true =>
      refine ⟨?_, fun hc => Bool.noConfusion hc⟩
      by_cases hcur : env.currentEmail = some acc.context.email
      · simp [fetchData, loadCodeAssist, h0, hcur, refreshCalls]
      · cases hr : (env.refresh acc.auth.id_token).error with
        | true =>
            simp [fetchData, loadCodeAssist, refreshSettle, h0, hcur, hr,
              refreshCalls]
        | false =>
            simp only [fetchData, loadCodeAssist, refreshSettle, h0, hcur, hr,
              if_true, if_false, Bool.false_eq_true, if_neg hcur]
            rw [fetchDataTail_refreshCalls]
            simp [refreshCalls]

def envC3 : Env :=
  ⟨fun _ _ => ⟨false, some "PROJ"⟩, none,
    fun _ => ⟨false, "NEW-AT"⟩, fun _ _ => ⟨false, "MODELS"⟩⟩

def accC3 : AntigravityAccount :=
  ⟨⟨"AT", "RH", "IDT"⟩, ⟨"carol@example.com", none⟩, "raw"⟩

def cacheC3 : Cache := fun _ => none

theorem fetchData_at_most_one_refresh_witness :
    refreshCalls (fetchData envC3 cacheC3 accC3).trace = 0 :=
  (fetchData_at_most_one_refresh envC3 cacheC3 accC3).2 rfl

/-- C4, as stated, is false on the code: at an input whose initial
session-initialization call succeeds (with project "P0"), `fetchData`
still issues a second session-initialization call — two in total, not
one — and keys the model-listing call by the second response's project
("P1"), not the first response's. -/
theorem fetchData_single_session_init_cex :
    ((⟨fun k _ => if k = 0 then ⟨false, some "P0"⟩ else ⟨false, some "P1"⟩,
        none, fun _ => ⟨false, "NEW-AT"⟩,
        fun _ _ => ⟨false, "MODELS"⟩⟩ : Env).load 0 "AT").error = false ∧
    loadCalls (fetchData
        ⟨fun k _ => if k = 0 then ⟨false, some "P0"⟩ else ⟨false, some "P1"⟩,
          none, fun _ => ⟨false, "NEW-AT"⟩, fun _ _ => ⟨false, "MODELS"⟩⟩
        (fun _ => none)
        ⟨⟨"AT", "RH", "IDT"⟩, ⟨"dave@example.com", none⟩, "raw"⟩).trace = 2 ∧
    Call.fetchModels "AT" (some "P1") ∈ (fetchData
        ⟨fun k _ => if k = 0 then ⟨false, some "P0"⟩ else ⟨false, some "P1"⟩,
          none, fun _ => ⟨false, "NEW-AT"⟩, fun _ _ => ⟨false, "MODELS"⟩⟩
        (fun _ => none)
        ⟨⟨"AT", "RH", "IDT"⟩, ⟨"dave@example.com", none⟩, "raw"⟩).trace := by
  decide

/-- C4 (amended): when the initial session-initialization call settles
without error, `fetchData` issues a second session-initialization call
(two total in the invocation) and keys the model-listing call by the
project id of that second response. -/
theorem fetchData_two_session_init_calls (env : Env) (cache : Cache)
    (acc : AntigravityAccount)
    (h0 : (env.load 0 acc.auth.access_token).error = false) :
    loadCalls (fetchData env cache acc).trace = 2 ∧
    ((env.load 1 acc.auth.access_token).error = false →
      Call.fetchModels acc.auth.access_token
          (env.load 1 acc.auth.access_token).cloudaicompanionProject ∈
        (fetchData env cache acc).trace) := by
  constructor
  · simp only [fetchData, loadCodeAssist, h0, Bool.false_eq_true, if_false]
    rw [fetchDataTail_loadCalls]
    simp [loadCalls]
  · intro h1
    simp only [fetchData, loadCodeAssist, h0, Bool.false_eq_true, if_false]
    exact fetchDataTail_models_mem env cache acc _ h1

def envC4 : Env :=
  ⟨fun k _ => if k = 0 then ⟨false, some "P0"⟩ else ⟨false, none⟩, none,
    fun _ => ⟨false, "NEW-AT"⟩, fun _ _ => ⟨false, "MODELS"⟩⟩

def accC4 : AntigravityAccount :=
  ⟨⟨"AT", "RH", "IDT"⟩, ⟨"dave@example.com", none⟩, "raw"⟩

def cacheC4 : Cache := fun _ => none

theorem fetchData_two_session_init_calls_witness :
    loadCalls (fetchData envC4 cacheC4 accC4).trace = 2 ∧
    Call.fetchModels "AT" none ∈ (fetchData envC4 cacheC4 accC4).trace := by
  have h := fetchData_two_session_init_calls envC4 cacheC4 accC4 rfl
  exact ⟨h.1, h.2 rfl⟩

/-- C5: when the initial session-initialization call fails, the account
is not the active one and the refresh grant settles without error, the
only account field `fetchData` mutates is `auth.access_token` (set to
the refreshed token, in memory — the source performs no file write
here); email, refresh handle, id token, context and raw state are
unchanged. -/
theorem fetchData_refresh_frame (env : Env) (cache : Cache)
    (acc : AntigravityAccount)
    (hfail : (env.load 0 acc.auth.access_token).error = true)
    (hother : env.currentEmail ≠ some acc.context.email)
    (hok : (env.refresh acc.auth.id_token).error = false) :
    (fetchData env cache acc).account.auth.access_token
        = (env.refresh acc.auth.id_token).access_token ∧
    (fetchData env cache acc).account.auth.refresh_handle
        = acc.auth.refresh_handle ∧
    (fetchData env cache acc).account.auth.id_token = acc.auth.id_token ∧
    (fetchData env cache acc).account.context = acc.context ∧
    (fetchData env cache acc).account.raw_state = acc.raw_state := by
  simp only [fetchData, loadCodeAssist, refreshSettle, hfail, hok, if_true,
    Bool.false_eq_true, if_false, if_neg hother]
  rw [fetchDataTail_account]
  exact ⟨rfl, rfl, rfl, rfl, rfl⟩

def envC5 : Env :=
  ⟨fun k _ => if k = 0 then ⟨true, none⟩ else ⟨false, some "P"⟩,
    some "alice@example.com",
    fun _ => ⟨false, "NEW-AT"⟩, fun _ _ => ⟨false, "MODELS"⟩⟩

def accC5 : AntigravityAccount :=
  ⟨⟨"AT", "RH", "IDT"⟩, ⟨"bob@example.com", none⟩, "raw"⟩

def cacheC5 : Cache := fun _ => none

theorem fetchData_refresh_frame_witness :
    (fetchData envC5 cacheC5 accC5).account.auth.access_token = "NEW-AT" ∧
    (fetchData envC5 cacheC5 accC5).account.auth.refresh_handle = "RH" ∧
    (fetchData envC5 cacheC5 accC5).account.auth.id_token = "IDT" ∧
    (fetchData envC5 cacheC5 accC5).account.raw_state = "raw" := by
  have h := fetchData_refresh_frame envC5 cacheC5 accC5 rfl (by decide) rfl
  exact ⟨h.1, h.2.1, h.2.2.1, h.2.2.2.2⟩

/-- C7: each wrapper (`loadCodeAssist`, `fetchAvailableModels`,
`refreshAccessToken`) rejects with the parsed response exactly when it
has an `"error"` member and otherwise resolves with it unchanged; and a
rejection mutates no account — at `fetchData` level, a run whose
refresh grant rejects leaves the account and the whole cache
untouched. -/
theorem api_reject_iff_error :
    (∀ r : LoadResp, (loadCodeAssist r = Except.error r ↔ r.error = true) ∧
      (r.error = false → loadCodeAssist r = Except.ok r)) ∧
    (∀ m : ModelsResp,
      (fetchAvailableModels m = Except.error m ↔ m.error = true) ∧
      (m.error = false → fetchAvailableModels m = Except.ok m)) ∧
    (∀ (oenv : OAuthEnv) (tok : String) (r : RefreshResp) (cid : String)
        (sec : Option String),
      getGoogleOAuthClientCredentials oenv = Except.ok (cid, sec) →
      ((refreshAccessToken oenv tok r).result
          = Except.error (RefreshFailure.response r) ↔ r.error = true) ∧
      (r.error = false → (refreshAccessToken oenv tok r).result = Except.ok r)) ∧
    (∀ (env : Env) (cache : Cache) (acc : AntigravityAccount),
      (env.load 0 acc.auth.access_token).error = true →
      env.currentEmail ≠ some acc.context.email →
      (env.refresh acc.auth.id_token).error = true →
      (fetchData env cache acc).account = acc ∧
      (∀ e, (fetchData env cache acc).cache e = cache e) ∧
      (fetchData env cache acc).outcome = Outcome.rejected) := by
  refine ⟨?_, ?_, ?_, ?_⟩
  · intro r
    cases hr : r.error with
    | true => simp [loadCodeAssist, hr]
    | false => simp [loadCodeAssist, hr]
  · intro m
    cases hm : m.error with
    | true => simp [fetchAvailableModels, hm]
    | false => simp [fetchAvailableModels, hm]
  · intro oenv tok r cid sec hc
    cases hr : r.error with
    | true => simp [refreshAccessToken, hc, refreshSettle, hr]
    | false => simp [refreshAccessToken, hc, refreshSettle, hr]
  · intro env cache acc hfail hother hrej
    simp [fetchData, loadCodeAssist, refreshSettle, hfail, hrej, if_neg hother]

theorem api_reject_iff_error_witness :
    loadCodeAssist ⟨true, none⟩ = Except.error ⟨true, none⟩ ∧
    fetchAvailableModels ⟨false, "MODELS"⟩ = Except.ok ⟨false, "MODELS"⟩ ∧
    (refreshAccessToken ⟨some "CID", none⟩ "RT" ⟨true, "X"⟩).result
      = Except.error (RefreshFailure.response ⟨true, "X"⟩) := by
  refine ⟨?_, ?_, ?_⟩
  · exact (api_reject_iff_error.1 ⟨true, none⟩).1.mpr rfl
  · exact (api_reject_iff_error.2.1 ⟨false, "MODELS"⟩).2 rfl
  · exact (api_reject_iff_error.2.2.1 ⟨some "CID", none⟩ "RT" ⟨true, "X"⟩
      "CID" none rfl).1.mpr rfl

/-- C8, in its missing-project clause, is false on the code: at an
input with a valid session whose response carries no
`cloudaicompanionProject`, `fetchData` does not fail — it issues the
model-listing call with an absent project value and resolves, caching
the result. -/
theorem missing_project_id_proceeds_cex :
    ((⟨fun _ _ => ⟨false, none⟩, none, fun _ => ⟨false, "NEW-AT"⟩,
        fun _ _ => ⟨false, "MODELS"⟩⟩ : Env).load 1 "AT").cloudaicompanionProject
      = none ∧
    Call.fetchModels "AT" none ∈ (fetchData
        ⟨fun _ _ => ⟨false, none⟩, none, fun _ => ⟨false, "NEW-AT"⟩,
          fun _ _ => ⟨false, "MODELS"⟩⟩
        (fun _ => none)
        ⟨⟨"AT", "RH", "IDT"⟩, ⟨"eve@example.com", none⟩, "raw"⟩).trace ∧
    (fetchData
        ⟨fun _ _ => ⟨false, none⟩, none, fun _ => ⟨false, "NEW-AT"⟩,
          fun _ _ => ⟨false, "MODELS"⟩⟩
        (fun _ => none)
        ⟨⟨"AT", "RH", "IDT"⟩, ⟨"eve@example.com", none⟩, "raw"⟩).outcome
      = Outcome.ok := by
  decide

/-- C8 (amended): on a valid session, `fetchData` issues the
model-listing call keyed by the session response's
`cloudaicompanionProject` (whether or not it is present — a missing
project id is not checked locally) and caches the result in the store
under the account's email. -/
theorem fetchData_models_keyed_and_cached (env : Env) (cache : Cache)
    (acc : AntigravityAccount)
    (h0 : (env.load 0 acc.auth.access_token).error = false)
    (h1 : (env.load 1 acc.auth.access_token).error = false)
    (hm : (env.models acc.auth.access_token
        (env.load 1 acc.auth.access_token).cloudaicompanionProject).error
      = false) :
    Call.fetchModels acc.auth.access_token
        (env.load 1 acc.auth.access_token).cloudaicompanionProject ∈
      (fetchData env cache acc).trace ∧
    (fetchData env cache acc).cache acc.context.email
      = some (env.models acc.auth.access_token
          (env.load 1 acc.auth.access_token).cloudaicompanionProject) ∧
    (fetchData env cache acc).outcome = Outcome.ok := by
  simp only [fetchData, loadCodeAssist, h0, Bool.false_eq_true, if_false]
  refine ⟨fetchDataTail_models_mem env cache acc _ h1, ?_, ?_⟩
  · simp [fetchDataTail, loadCodeAssist, fetchAvailableModels, h1, hm]
  · simp [fetchDataTail, loadCodeAssist, fetchAvailableModels, h1, hm]

def envC8 : Env :=
  ⟨fun _ _ => ⟨false, none⟩, none, fun _ => ⟨false, "NEW-AT"⟩,
    fun _ _ => ⟨false, "MODELS"⟩⟩

def accC8 : AntigravityAccount :=
  ⟨⟨"AT", "RH", "IDT"⟩, ⟨"eve@example.com", none⟩, "raw"⟩

def cacheC8 : Cache := fun _ => none

theorem fetchData_models_keyed_and_cached_witness :
    Call.fetchModels "AT" none ∈ (fetchData envC8 cacheC8 accC8).trace ∧
    (fetchData envC8 cacheC8 accC8).cache "eve@example.com"
      = some ⟨false, "MODELS"⟩ := by
  have h := fetchData_models_keyed_and_cached envC8 cacheC8 accC8 rfl rfl rfl
  exact ⟨h.1, h.2.1⟩

/-- C9: a `fetchData` invocation that resolves leaves every cache entry
other than the one under the account's own email exactly as it was. -/
theorem fetchData_cache_frame (env : Env) (cache : Cache)
    (acc : AntigravityAccount) (e : String)
    (_hok : (fetchData env cache acc).outcome = Outcome.ok)
    (hne : e ≠ acc.context.email) :
    (fetchData env cache acc).cache e = cache e := by
  cases h0 : (env.load 0 acc.auth.access_token).error with
  | false =>
      simp only [fetchData, loadCodeAssist, h0, Bool.false_eq_true, if_false]
      exact fetchDataTail_cache_frame env cache acc _ e hne
  | true =>
      by_cases hcur : env.currentEmail = some acc.context.email
      · simp [fetchData, loadCodeAssist, h0, hcur]
      · cases hr : (env.refresh acc.auth.id_token).error with
        | true => simp [fetchData, loadCodeAssist, refreshSettle, h0, hr, if_neg hcur]
        | false =>
            simp only [fetchData, loadCodeAssist, refreshSettle, h0, hr,
              if_true, Bool.false_eq_true, if_false, if_neg hcur]
            exact fetchDataTail_cache_frame env cache _ _ e hne

def envC9 : Env :=
  ⟨fun _ _ => ⟨false, some "PROJ"⟩, none, fun _ => ⟨false, "NEW-AT"⟩,
    fun _ _ => ⟨false, "MODELS"⟩⟩

def accC9 : AntigravityAccount :=
  ⟨⟨"AT", "RH", "IDT"⟩, ⟨"frank@example.com", none⟩, "raw"⟩

def cacheC9 : Cache := fun e => if e = "grace@example.com" then some ⟨false, "OLD"⟩ else none

theorem fetchData_cache_frame_witness :
    (fetchData envC9 cacheC9 accC9).cache "grace@example.com"
      = some ⟨false, "OLD"⟩ := by
  have h := fetchData_cache_frame envC9 cacheC9 accC9 "grace@example.com"
    (by decide) (by decide)
  rw [h]
  rfl

/-- C10: `refreshAccessToken` throws before issuing any network request
when the Google OAuth client id is undefined or empty; when it is
configured, the posted form body carries `client_id`,
`grant_type=refresh_token` and `refresh_token`, and carries
`client_secret` exactly when a (non-empty) client secret is
configured. -/
theorem refreshAccessToken_client_credentials (oenv : OAuthEnv)
    (tok : String) (resp : RefreshResp) :
    (jsTruthy oenv.clientId = false →
      (refreshAccessToken oenv tok resp).request = none ∧
      (refreshAccessToken oenv tok resp).result
        = Except.error (RefreshFailure.missingClientId
            "Missing VITE_GOOGLE_OAUTH_CLIENT_ID (Google OAuth client_id)")) ∧
    (∀ cid, oenv.clientId = some cid → cid.isEmpty = false →
      (refreshAccessToken oenv tok resp).request
        = some (refreshTokenBody cid (normalizeSecret oenv.clientSecret) tok) ∧
      ("client_id", cid)
        ∈ refreshTokenBody cid (normalizeSecret oenv.clientSecret) tok ∧
      ("grant_type", "refresh_token")
        ∈ refreshTokenBody cid (normalizeSecret oenv.clientSecret) tok ∧
      ("refresh_token", tok)
        ∈ refreshTokenBody cid (normalizeSecret oenv.clientSecret) tok ∧
      ((∃ s, ("client_secret", s)
          ∈ refreshTokenBody cid (normalizeSecret oenv.clientSecret) tok)
        ↔ jsTruthy oenv.clientSecret = true)) := by
  constructor
  · intro hfalse
    cases hcid : oenv.clientId with
    | none =>
        constructor
        · simp [refreshAccessToken, getGoogleOAuthClientCredentials, hcid]
        · simp [refreshAccessToken, getGoogleOAuthClientCredentials, hcid]
    | some cid =>
        have hemp : cid.isEmpty = true := by
          rw [hcid] at hfalse
          simpa [jsTruthy] using hfalse
        constructor
        · simp [refreshAccessToken, getGoogleOAuthClientCredentials, hcid, hemp]
        · simp [refreshAccessToken, getGoogleOAuthClientCredentials, hcid, hemp]
  · intro cid hcid hemp
    refine ⟨?_, ?_, ?_, ?_, ?_⟩
    · simp [refreshAccessToken, getGoogleOAuthClientCredentials, hcid, hemp]
    · simp [refreshTokenBody]
    · simp [refreshTokenBody]
    · simp [refreshTokenBody]
    · cases hsec : oenv.clientSecret with
      | none => simp [refreshTokenBody, normalizeSecret, jsTruthy, hsec]
      | some s =>
          cases hse : s.isEmpty with
          | true => simp [refreshTokenBody, normalizeSecret, jsTruthy, hsec, hse]
          | false => simp [refreshTokenBody, normalizeSecret, jsTruthy, hsec, hse]

theorem refreshAccessToken_client_credentials_witness :
    (refreshAccessToken ⟨none, some "SEC"⟩ "RT" ⟨false, "AT2"⟩).request
      = none ∧
    (refreshAccessToken ⟨some "CID", some "SEC"⟩ "RT" ⟨false, "AT2"⟩).request
      = some [("client_id", "CID"), ("grant_type", "refresh_token"),
          ("refresh_token", "RT"), ("client_secret", "SEC")] ∧
    (refreshAccessToken ⟨some "CID", none⟩ "RT" ⟨false, "AT2"⟩).request
      = some [("client_id", "CID"), ("grant_type", "refresh_token"),
          ("refresh_token", "RT")] := by
  refine ⟨?_, ?_, ?_⟩
  · exact ((refreshAccessToken_client_credentials ⟨none, some "SEC"⟩ "RT"
      ⟨false, "AT2"⟩).1 rfl).1
  · have h := ((refreshAccessToken_client_credentials ⟨some "CID", some "SEC"⟩
      "RT" ⟨false, "AT2"⟩).2 "CID" rfl (by decide)).1
    rw [h]
    rfl
  · have h := ((refreshAccessToken_client_credentials ⟨some "CID", none⟩
      "RT" ⟨false, "AT2"⟩).2 "CID" rfl (by decide)).1
    rw [h]
    rfl
